import Mathlib

/-!
Verification of the liberator PVC-cleanup controller (`main.go`).

The controller watches PersistentVolumeClaims.  When a claim carrying the
finalizer `liberator.io/pv-claim-ref-cleanup` is being deleted, it clears the
bound PersistentVolume's `spec.claimRef` back-reference (when it matches the
claim) and then removes the finalizer from the claim.

We embed the reconciliation logic shallowly: the Kubernetes client is an
explicit environment of read results and write outcomes, and `Reconcile`
returns its outcome together with the ordered list of store writes it issued.
-/

namespace Liberator

/-- The finalizer string `PVClaimRefCleanupFinalizer` from `main.go`. -/
def PVClaimRefCleanupFinalizer : String := "liberator.io/pv-claim-ref-cleanup"

/-- A claim back-reference on a volume (`pv.Spec.ClaimRef`): the bound
claim's name and namespace.  (`ns` models the Go field `Namespace`;
`namespace` is a Lean keyword.) -/
structure ClaimRef where
  name : String
  ns : String
  deriving Repr, DecidableEq

/-- The part of `PersistentVolumeSpec` the controller touches: the optional
`ClaimRef`, with every other spec field collapsed into an opaque component
the controller never reads or writes. -/
structure PersistentVolumeSpec where
  claimRef : Option ClaimRef
  otherSpecFields : String
  deriving Repr, DecidableEq

/-- A `PersistentVolume` object: its name, its spec, and opaque metadata and
status components that the controller never touches. -/
structure PersistentVolume where
  name : String
  metadata : String
  spec : PersistentVolumeSpec
  status : String
  deriving Repr, DecidableEq

/-- A `PersistentVolumeClaim` object.  `deletionTimestampSet` models
`!pvc.DeletionTimestamp.IsZero()` (the deletion marker), `volumeName` models
`pvc.Spec.VolumeName` (empty string = unbound), and `otherFields` collapses
every field the controller never touches. -/
structure PersistentVolumeClaim where
  name : String
  ns : String
  finalizers : List String
  deletionTimestampSet : Bool
  volumeName : String
  otherFields : String
  deriving Repr, DecidableEq

/-- A reconcile request key (`req.NamespacedName`). -/
structure NamespacedName where
  name : String
  ns : String
  deriving Repr, DecidableEq

/-- Result of a client `Get`: the object, NotFound, or any other error
(`err`).  `client.IgnoreNotFound` maps NotFound to nil and leaves other
errors. -/
inductive GetResult (α : Type) where
  | found : α → GetResult α
  | notFound : GetResult α
  | err : GetResult α
  deriving Repr, DecidableEq

/-- Outcome of `Reconcile` as seen by controller-runtime:
`success` is `(ctrl.Result{}, nil)` (terminal, no requeue);
`retry` is `(ctrl.Result{}, err)` with a non-nil error, which the host
requeues with backoff. -/
inductive Outcome where
  | success : Outcome
  | retry : Outcome
  deriving Repr, DecidableEq

/-- A store write attempted by the controller, with the object written and
whether the `Update` call succeeded. -/
inductive WriteEvent where
  | pvWrite : PersistentVolume → Bool → WriteEvent
  | pvcWrite : PersistentVolumeClaim → Bool → WriteEvent
  deriving Repr, DecidableEq

/-- The client environment for one `Reconcile` invocation: what each `Get`
returns and whether each `Update` succeeds. -/
structure Env where
  getPVC : NamespacedName → GetResult PersistentVolumeClaim
  getPV : String → GetResult PersistentVolume
  updatePV : PersistentVolume → Bool
  updatePVC : PersistentVolumeClaim → Bool

/-- `hasFinalizer` from `main.go`: `slices.Contains(finalizers, PVClaimRefCleanupFinalizer)`. -/
def hasFinalizer (finalizers : List String) : Bool :=
  finalizers.contains PVClaimRefCleanupFinalizer

/-- The helper `removeFinalizer` from `main.go`: builds a fresh slice holding
every finalizer other than `PVClaimRefCleanupFinalizer`, in order. -/
def removeFinalizer (finalizers : List String) : List String :=
  finalizers.foldl
    (fun result finalizer =>
      if finalizer ≠ PVClaimRefCleanupFinalizer then result ++ [finalizer]
      else result)
    []

/-- The claimRef match test inlined in `handlePVCDeletion`:
`pv.Spec.ClaimRef != nil && pv.Spec.ClaimRef.Name == pvc.Name && pv.Spec.ClaimRef.Namespace == pvc.Namespace`. -/
def claimRefMatches (pv : PersistentVolume) (pvc : PersistentVolumeClaim) : Bool :=
  match pv.spec.claimRef with
  | some ref => ref.name == pvc.name && ref.ns == pvc.ns
  | none => false

/-- The method `removeFinalizer` on `PVCReconciler`: deep-copies the claim,
strips the finalizer, and issues the claim `Update`; a failed update is
returned as an error (retryable). -/
def removeFinalizerUpdate (env : Env) (pvc : PersistentVolumeClaim) :
    Outcome × List WriteEvent :=
  let pvcCopy := { pvc with finalizers := removeFinalizer pvc.finalizers }
  if env.updatePVC pvcCopy then
    (Outcome.success, [WriteEvent.pvcWrite pvcCopy true])
  else
    (Outcome.retry, [WriteEvent.pvcWrite pvcCopy false])

/-- `handlePVCDeletion` from `main.go`.  If the claim is bound, read the
volume: a non-NotFound read error is returned (retryable); NotFound falls
through to finalizer removal; a found volume whose claimRef matches the claim
is deep-copied, cleared, and written, a failed volume write being returned
before any claim write; then the finalizer is removed. -/
def handlePVCDeletion (env : Env) (pvc : PersistentVolumeClaim) :
    Outcome × List WriteEvent :=
  if pvc.volumeName ≠ "" then
    match env.getPV pvc.volumeName with
    | GetResult.err => (Outcome.retry, [])
    | GetResult.notFound => removeFinalizerUpdate env pvc
    | GetResult.found pv =>
      if claimRefMatches pv pvc then
        let pvCopy := { pv with spec := { pv.spec with claimRef := none } }
        if env.updatePV pvCopy then
          let rest := removeFinalizerUpdate env pvc
          (rest.1, WriteEvent.pvWrite pvCopy true :: rest.2)
        else
          (Outcome.retry, [WriteEvent.pvWrite pvCopy false])
      else
        removeFinalizerUpdate env pvc
  else
    removeFinalizerUpdate env pvc

/-- `Reconcile` from `main.go`: read the claim (NotFound is ignored and
terminal, other read errors are retryable); when the claim is being deleted
and carries the finalizer, run `handlePVCDeletion`; otherwise do nothing. -/
def Reconcile (env : Env) (req : NamespacedName) : Outcome × List WriteEvent :=
  match env.getPVC req with
  | GetResult.notFound => (Outcome.success, [])
  | GetResult.err => (Outcome.retry, [])
  | GetResult.found pvc =>
    if pvc.deletionTimestampSet && hasFinalizer pvc.finalizers then
      handlePVCDeletion env pvc
    else
      (Outcome.success, [])

/-! ## Event filter (`SetupWithManager`) -/

/-- A `client.Object` delivered in a watch notification: either a
PersistentVolumeClaim, or some other object kind (which still exposes
`GetFinalizers` and `GetDeletionTimestamp`). -/
inductive StoreObject where
  | pvcObj : PersistentVolumeClaim → StoreObject
  | otherObj : List String → Bool → StoreObject
  deriving Repr, DecidableEq

/-- `obj.GetFinalizers()`. -/
def getFinalizers : StoreObject → List String
  | StoreObject.pvcObj c => c.finalizers
  | StoreObject.otherObj fz _ => fz

/-- `!obj.GetDeletionTimestamp().IsZero()`. -/
def getDeletionTimestampSet : StoreObject → Bool
  | StoreObject.pvcObj c => c.deletionTimestampSet
  | StoreObject.otherObj _ dt => dt

/-- A change notification, as delivered to the combined predicate:
create, update (old and new objects), delete, or generic re-sync. -/
inductive ChangeEvent where
  | create : StoreObject → ChangeEvent
  | update : StoreObject → StoreObject → ChangeEvent
  | delete : StoreObject → ChangeEvent
  | generic : StoreObject → ChangeEvent
  deriving Repr, DecidableEq

/-- The function wrapped by `predicate.NewPredicateFuncs` in
`SetupWithManager`: true iff the object is a PersistentVolumeClaim with a
non-empty `Spec.VolumeName`. -/
def hasBoundPV : StoreObject → Bool
  | StoreObject.pvcObj c => c.volumeName != ""
  | StoreObject.otherObj _ _ => false

/-- `hasBoundPVPredicate` as a predicate on events:
`predicate.NewPredicateFuncs` applies the wrapped function to `e.Object` for
create/delete/generic events and to `e.ObjectNew` for update events. -/
def hasBoundPVFuncs : ChangeEvent → Bool
  | ChangeEvent.create obj => hasBoundPV obj
  | ChangeEvent.update _ objNew => hasBoundPV objNew
  | ChangeEvent.delete obj => hasBoundPV obj
  | ChangeEvent.generic obj => hasBoundPV obj

/-- The `predicate.Funcs` literal in `SetupWithManager`: create and generic
admit iff the object carries the finalizer; delete never admits; update
admits iff finalizer presence differs between old and new, or the new
object's deletion timestamp is set. -/
def liberatorFuncs : ChangeEvent → Bool
  | ChangeEvent.create obj => hasFinalizer (getFinalizers obj)
  | ChangeEvent.delete _ => false
  | ChangeEvent.update objOld objNew =>
    let oldObject := hasFinalizer (getFinalizers objOld)
    let newObject := hasFinalizer (getFinalizers objNew)
    let deletionStarted := getDeletionTimestampSet objNew
    (oldObject != newObject) || deletionStarted
  | ChangeEvent.generic obj => hasFinalizer (getFinalizers obj)

/-- `predicate.And(hasBoundPVPredicate, predicates)`: the event filter
installed via `WithEventFilter`; admits iff both component predicates admit. -/
def eventFilter (e : ChangeEvent) : Bool :=
  hasBoundPVFuncs e && liberatorFuncs e

/-! ## Helper lemmas -/

lemma removeFinalizer_foldl (finalizers acc : List String) :
    finalizers.foldl
      (fun result finalizer =>
        if finalizer ≠ PVClaimRefCleanupFinalizer then result ++ [finalizer]
        else result)
      acc
      = acc ++ finalizers.filter (fun f => f != PVClaimRefCleanupFinalizer) := by
  induction finalizers generalizing acc with
  | nil => simp
  | cons hd tl ih =>
    rw [List.foldl_cons, ih]
    by_cases h : hd = PVClaimRefCleanupFinalizer
    · simp [h, List.filter_cons]
    · simp [h, List.filter_cons]

lemma removeFinalizer_eq_filter (finalizers : List String) :
    removeFinalizer finalizers
      = finalizers.filter (fun f => f != PVClaimRefCleanupFinalizer) := by
  unfold removeFinalizer
  simpa using removeFinalizer_foldl finalizers []

lemma finalizer_not_mem_removeFinalizer (finalizers : List String) :
    PVClaimRefCleanupFinalizer ∉ removeFinalizer finalizers := by
  rw [removeFinalizer_eq_filter]
  intro h
  have := List.of_mem_filter h
  simp at this

lemma hasFinalizer_removeFinalizer (finalizers : List String) :
    hasFinalizer (removeFinalizer finalizers) = false := by
  have h := finalizer_not_mem_removeFinalizer finalizers
  unfold hasFinalizer
  simpa using h

lemma removeFinalizerUpdate_snd (env : Env) (pvc : PersistentVolumeClaim) :
    (removeFinalizerUpdate env pvc).2
      = [WriteEvent.pvcWrite { pvc with finalizers := removeFinalizer pvc.finalizers }
          (env.updatePVC { pvc with finalizers := removeFinalizer pvc.finalizers })] := by
  unfold removeFinalizerUpdate
  by_cases h : env.updatePVC { pvc with finalizers := removeFinalizer pvc.finalizers } = true
  · simp [h]
  · simp only [Bool.not_eq_true] at h
    simp [h]

/-! ## Concrete fixtures (scenarios A/B/C of the spec) -/

/-- An environment whose reads and write outcomes are constant. -/
def envWith (g : GetResult PersistentVolumeClaim) (gv : GetResult PersistentVolume)
    (upv upvc : Bool) : Env :=
  { getPVC := fun _ => g
    getPV := fun _ => gv
    updatePV := fun _ => upv
    updatePVC := fun _ => upvc }

/-- Scenario A claim: token present, deleting, bound to `v1`. -/
def pvcA : PersistentVolumeClaim :=
  { name := "c1"
    ns := "ns1"
    finalizers := ["kubernetes.io/pvc-protection", PVClaimRefCleanupFinalizer]
    deletionTimestampSet := true
    volumeName := "v1"
    otherFields := "x" }

/-- Scenario A volume: back-reference matches `pvcA`. -/
def pvA : PersistentVolume :=
  { name := "v1"
    metadata := "m"
    spec := { claimRef := some { name := "c1", ns := "ns1" }, otherSpecFields := "s" }
    status := "st" }

/-- Scenario B volume: mismatched back-reference. -/
def pvB : PersistentVolume :=
  { name := "v1"
    metadata := "m"
    spec := { claimRef := some { name := "other", ns := "ns2" }, otherSpecFields := "s" }
    status := "st" }

/-- The request key for `pvcA`. -/
def reqA : NamespacedName := { name := "c1", ns := "ns1" }

/-- A claim with the token but no deletion marker. -/
def pvcAlive : PersistentVolumeClaim :=
  { pvcA with deletionTimestampSet := false }

/-- A deleting, bound claim without the token. -/
def pvcNoToken : PersistentVolumeClaim :=
  { pvcA with finalizers := ["kubernetes.io/pvc-protection"] }

/-- A deleting claim carrying the token but unbound (empty volume name). -/
def pvcUnbound : PersistentVolumeClaim :=
  { pvcA with volumeName := "" }

/-! ## Claim theorems -/

/-- Claim C5: when the claim is found but its deletion marker is unset, or the
guard token is absent from its finalizers, `Reconcile` returns terminal
success and issues no store write at all.  Since no state is mutated, any
number of repeated runs on such a claim is the same no-op. -/
theorem reconcile_noop_when_not_cleanup (env : Env) (req : NamespacedName)
    (pvc : PersistentVolumeClaim)
    (hget : env.getPVC req = GetResult.found pvc)
    (h : pvc.deletionTimestampSet = false ∨ hasFinalizer pvc.finalizers = false) :
    Reconcile env req = (Outcome.success, []) := by
  unfold Reconcile
  rw [hget]
  rcases h with h | h <;> simp [h]

/-- Witness for C5: `pvcAlive` (token present, marker unset) is a no-op. -/
theorem reconcile_noop_when_not_cleanup_witness :
    Reconcile (envWith (GetResult.found pvcAlive) (GetResult.found pvA) true true) reqA
      = (Outcome.success, []) :=
  reconcile_noop_when_not_cleanup _ reqA pvcAlive rfl (Or.inl rfl)

/-- Claim C6: a NotFound on the initial claim read yields terminal success
(`client.IgnoreNotFound` maps it to nil), any other read error yields a
retryable failure, and in both cases the write trace is empty. -/
theorem reconcile_claim_read_errors (env : Env) (req : NamespacedName) :
    (env.getPVC req = GetResult.notFound →
      Reconcile env req = (Outcome.success, [])) ∧
    (env.getPVC req = GetResult.err →
      Reconcile env req = (Outcome.retry, [])) := by
  constructor <;> intro h <;> unfold Reconcile <;> rw [h]

/-- Witness for C6 at concrete environments for both error kinds. -/
theorem reconcile_claim_read_errors_witness :
    Reconcile (envWith GetResult.notFound GetResult.notFound true true) reqA
      = (Outcome.success, []) ∧
    Reconcile (envWith GetResult.err GetResult.notFound true true) reqA
      = (Outcome.retry, []) :=
  ⟨(reconcile_claim_read_errors (envWith GetResult.notFound GetResult.notFound true true)
      reqA).1 rfl,
   (reconcile_claim_read_errors (envWith GetResult.err GetResult.notFound true true)
      reqA).2 rfl⟩

/-- Claim C9: the finalizer list written back is exactly the input list with
every occurrence of the guard token removed, preserving all other entries and
their relative order (the `filter` characterisation); the token never occurs
in the result, and the claim write issued by the reconciler carries exactly
that filtered list (the controller never adds its token). -/
theorem removeFinalizer_exact :
    (∀ finalizers : List String,
      removeFinalizer finalizers
          = finalizers.filter (fun f => f != PVClaimRefCleanupFinalizer) ∧
      PVClaimRefCleanupFinalizer ∉ removeFinalizer finalizers) ∧
    (∀ (env : Env) (pvc : PersistentVolumeClaim),
      (removeFinalizerUpdate env pvc).2
        = [WriteEvent.pvcWrite
            { pvc with finalizers := removeFinalizer pvc.finalizers }
            (env.updatePVC { pvc with finalizers := removeFinalizer pvc.finalizers })]) :=
  ⟨fun finalizers =>
    ⟨removeFinalizer_eq_filter finalizers, finalizer_not_mem_removeFinalizer finalizers⟩,
   removeFinalizerUpdate_snd⟩

/-- Witness for C9 on a concrete list with duplicate tokens. -/
theorem removeFinalizer_exact_witness :
    removeFinalizer ["a", PVClaimRefCleanupFinalizer, "b", PVClaimRefCleanupFinalizer]
      = ["a", "b"] := by
  rw [(removeFinalizer_exact.1
        ["a", PVClaimRefCleanupFinalizer, "b", PVClaimRefCleanupFinalizer]).1]
  decide

/-- Claim C3: on the cleanup path, when the bound volume exists and its
back-reference matches the claim by name and namespace and both updates
succeed, `Reconcile` succeeds and its write trace is exactly the volume write
(back-reference cleared) followed by the claim write (guard token removed):
two store writes in total, and the written finalizer list no longer carries
the token. -/
theorem reconcile_matching_two_writes (env : Env) (req : NamespacedName)
    (pvc : PersistentVolumeClaim) (pv : PersistentVolume)
    (hget : env.getPVC req = GetResult.found pvc)
    (hdel : pvc.deletionTimestampSet = true)
    (hfin : hasFinalizer pvc.finalizers = true)
    (hvol : pvc.volumeName ≠ "")
    (hpv : env.getPV pvc.volumeName = GetResult.found pv)
    (hmatch : claimRefMatches pv pvc = true)
    (hupv : env.updatePV { pv with spec := { pv.spec with claimRef := none } } = true)
    (hupvc : env.updatePVC { pvc with finalizers := removeFinalizer pvc.finalizers } = true) :
    Reconcile env req =
      (Outcome.success,
        [WriteEvent.pvWrite { pv with spec := { pv.spec with claimRef := none } } true,
         WriteEvent.pvcWrite { pvc with finalizers := removeFinalizer pvc.finalizers } true])
      ∧ hasFinalizer (removeFinalizer pvc.finalizers) = false := by
  refine ⟨?_, hasFinalizer_removeFinalizer pvc.finalizers⟩
  unfold Reconcile handlePVCDeletion removeFinalizerUpdate
  rw [hget]
  simp only [hdel] at hupvc
  simp [hdel, hfin, hvol, hpv, hmatch, hupv, hupvc]

/-- Witness for C3: Scenario A of the spec, with all updates succeeding. -/
theorem reconcile_matching_two_writes_witness :
    Reconcile (envWith (GetResult.found pvcA) (GetResult.found pvA) true true) reqA =
      (Outcome.success,
        [WriteEvent.pvWrite { pvA with spec := { pvA.spec with claimRef := none } } true,
         WriteEvent.pvcWrite { pvcA with finalizers := removeFinalizer pvcA.finalizers } true])
      ∧ hasFinalizer (removeFinalizer pvcA.finalizers) = false :=
  reconcile_matching_two_writes
    (envWith (GetResult.found pvcA) (GetResult.found pvA) true true) reqA pvcA pvA
    rfl rfl (by decide) (by decide) rfl (by decide) rfl rfl

/-- Claim C4: on the cleanup path, when the bound volume exists but its
back-reference does not match the claim, `Reconcile` issues no volume write:
the trace is exactly the single claim write removing the guard token.  A
nil/absent back-reference is one instance of a non-match (`claimRefMatches`
is false by definition on `none`, as the final conjunct records). -/
theorem reconcile_mismatch_one_write (env : Env) (req : NamespacedName)
    (pvc : PersistentVolumeClaim) (pv : PersistentVolume)
    (hget : env.getPVC req = GetResult.found pvc)
    (hdel : pvc.deletionTimestampSet = true)
    (hfin : hasFinalizer pvc.finalizers = true)
    (hvol : pvc.volumeName ≠ "")
    (hpv : env.getPV pvc.volumeName = GetResult.found pv)
    (hmatch : claimRefMatches pv pvc = false)
    (hupvc : env.updatePVC { pvc with finalizers := removeFinalizer pvc.finalizers } = true) :
    Reconcile env req =
      (Outcome.success,
        [WriteEvent.pvcWrite { pvc with finalizers := removeFinalizer pvc.finalizers } true])
      ∧ hasFinalizer (removeFinalizer pvc.finalizers) = false
      ∧ (∀ pvNil : PersistentVolume, pvNil.spec.claimRef = none →
          claimRefMatches pvNil pvc = false) := by
  refine ⟨?_, hasFinalizer_removeFinalizer pvc.finalizers, ?_⟩
  · unfold Reconcile handlePVCDeletion removeFinalizerUpdate
    rw [hget]
    simp only [hdel] at hupvc
    simp [hdel, hfin, hvol, hpv, hmatch, hupvc]
  · intro pvNil h
    unfold claimRefMatches
    rw [h]

/-- Witness for C4: Scenario B of the spec (back-reference `(other, ns2)`). -/
theorem reconcile_mismatch_one_write_witness :
    Reconcile (envWith (GetResult.found pvcA) (GetResult.found pvB) true true) reqA =
      (Outcome.success,
        [WriteEvent.pvcWrite { pvcA with finalizers := removeFinalizer pvcA.finalizers } true])
      ∧ hasFinalizer (removeFinalizer pvcA.finalizers) = false
      ∧ (∀ pvNil : PersistentVolume, pvNil.spec.claimRef = none →
          claimRefMatches pvNil pvcA = false) :=
  reconcile_mismatch_one_write
    (envWith (GetResult.found pvcA) (GetResult.found pvB) true true) reqA pvcA pvB
    rfl rfl (by decide) (by decide) rfl (by decide) rfl

/-- Claim C7: on the cleanup path with a bound claim, a NotFound volume read
makes `Reconcile` proceed directly to the guard-token removal — the trace is
exactly the one claim write with the token stripped, no volume write, and the
outcome is success exactly when that claim write succeeds — while any other
volume read error makes `Reconcile` return a retryable failure with an empty
write trace (the token is not removed). -/
theorem reconcile_pv_read_errors (env : Env) (req : NamespacedName)
    (pvc : PersistentVolumeClaim)
    (hget : env.getPVC req = GetResult.found pvc)
    (hdel : pvc.deletionTimestampSet = true)
    (hfin : hasFinalizer pvc.finalizers = true)
    (hvol : pvc.volumeName ≠ "") :
    (env.getPV pvc.volumeName = GetResult.notFound →
      (Reconcile env req).2
          = [WriteEvent.pvcWrite
              { pvc with finalizers := removeFinalizer pvc.finalizers }
              (env.updatePVC { pvc with finalizers := removeFinalizer pvc.finalizers })] ∧
      ((Reconcile env req).1 = Outcome.success ↔
        env.updatePVC { pvc with finalizers := removeFinalizer pvc.finalizers } = true)) ∧
    (env.getPV pvc.volumeName = GetResult.err →
      Reconcile env req = (Outcome.retry, [])) := by
  constructor
  · intro hpv
    have hr : Reconcile env req = removeFinalizerUpdate env pvc := by
      unfold Reconcile handlePVCDeletion
      rw [hget]
      simp [hdel, hfin, hvol, hpv]
    rw [hr]
    refine ⟨removeFinalizerUpdate_snd env pvc, ?_⟩
    unfold removeFinalizerUpdate
    by_cases hu : env.updatePVC { pvc with finalizers := removeFinalizer pvc.finalizers } = true
    · simp [hu]
    · simp only [Bool.not_eq_true] at hu
      simp [hu]
  · intro hpv
    unfold Reconcile handlePVCDeletion
    rw [hget]
    simp [hdel, hfin, hvol, hpv]

/-- Witness for C7: Scenario C (volume absent) and the transient-error case. -/
theorem reconcile_pv_read_errors_witness :
    ((Reconcile (envWith (GetResult.found pvcA) GetResult.notFound true true) reqA).2
        = [WriteEvent.pvcWrite
            { pvcA with finalizers := removeFinalizer pvcA.finalizers } true]) ∧
    Reconcile (envWith (GetResult.found pvcA) GetResult.err true true) reqA
      = (Outcome.retry, []) := by
  constructor
  · exact ((reconcile_pv_read_errors
      (envWith (GetResult.found pvcA) GetResult.notFound true true) reqA pvcA
      rfl rfl (by decide) (by decide)).1 rfl).1
  · exact (reconcile_pv_read_errors
      (envWith (GetResult.found pvcA) GetResult.err true true) reqA pvcA
      rfl rfl (by decide) (by decide)).2 rfl

/-- Claim C10: when the back-reference matches, the first (and only) volume
write carries exactly the read volume with `spec.claimRef` set to `none`:
name, metadata, status and every other spec field are unchanged (the code
writes `pv.DeepCopy()` with only `Spec.ClaimRef` nilled). -/
theorem reconcile_pv_write_frame (env : Env) (req : NamespacedName)
    (pvc : PersistentVolumeClaim) (pv : PersistentVolume)
    (hget : env.getPVC req = GetResult.found pvc)
    (hdel : pvc.deletionTimestampSet = true)
    (hfin : hasFinalizer pvc.finalizers = true)
    (hvol : pvc.volumeName ≠ "")
    (hpv : env.getPV pvc.volumeName = GetResult.found pv)
    (hmatch : claimRefMatches pv pvc = true) :
    (Reconcile env req).2.head?
        = some (WriteEvent.pvWrite { pv with spec := { pv.spec with claimRef := none } }
            (env.updatePV { pv with spec := { pv.spec with claimRef := none } })) ∧
    ({ pv with spec := { pv.spec with claimRef := none } }).name = pv.name ∧
    ({ pv with spec := { pv.spec with claimRef := none } }).metadata = pv.metadata ∧
    ({ pv with spec := { pv.spec with claimRef := none } }).status = pv.status ∧
    ({ pv with spec := { pv.spec with claimRef := none } }).spec.otherSpecFields
        = pv.spec.otherSpecFields ∧
    ({ pv with spec := { pv.spec with claimRef := none } }).spec.claimRef = none := by
  refine ⟨?_, rfl, rfl, rfl, rfl, rfl⟩
  unfold Reconcile handlePVCDeletion
  rw [hget]
  by_cases hu : env.updatePV { pv with spec := { pv.spec with claimRef := none } } = true
  · simp [hdel, hfin, hvol, hpv, hmatch, hu, removeFinalizerUpdate_snd]
  · simp only [Bool.not_eq_true] at hu
    simp [hdel, hfin, hvol, hpv, hmatch, hu]

/-- Witness for C10 at Scenario A with a failing volume write (the frame
property of the written object does not depend on the write outcome). -/
theorem reconcile_pv_write_frame_witness :
    ((Reconcile (envWith (GetResult.found pvcA) (GetResult.found pvA) false true) reqA).2.head?
        = some (WriteEvent.pvWrite { pvA with spec := { pvA.spec with claimRef := none } }
            false)) ∧
    ({ pvA with spec := { pvA.spec with claimRef := none } }).metadata = pvA.metadata :=
  ⟨(reconcile_pv_write_frame
      (envWith (GetResult.found pvcA) (GetResult.found pvA) false true) reqA pvcA pvA
      rfl rfl (by decide) (by decide) rfl (by decide)).1,
   (reconcile_pv_write_frame
      (envWith (GetResult.found pvcA) (GetResult.found pvA) false true) reqA pvcA pvA
      rfl rfl (by decide) (by decide) rfl (by decide)).2.2.1⟩

lemma removeFinalizerUpdate_shape (env : Env) (pvc : PersistentVolumeClaim) :
    ∃ c b, (removeFinalizerUpdate env pvc).2 = [WriteEvent.pvcWrite c b] :=
  ⟨_, _, removeFinalizerUpdate_snd env pvc⟩

lemma handlePVCDeletion_shape (env : Env) (pvc : PersistentVolumeClaim) :
    (handlePVCDeletion env pvc).2 = [] ∨
    (∃ c b, (handlePVCDeletion env pvc).2 = [WriteEvent.pvcWrite c b]) ∨
    (∃ v, (handlePVCDeletion env pvc).2 = [WriteEvent.pvWrite v false] ∧
      (handlePVCDeletion env pvc).1 = Outcome.retry) ∨
    (∃ v c b, (handlePVCDeletion env pvc).2
      = [WriteEvent.pvWrite v true, WriteEvent.pvcWrite c b]) := by
  unfold handlePVCDeletion
  by_cases hv : pvc.volumeName ≠ ""
  · rw [if_pos hv]
    cases hg : env.getPV pvc.volumeName with
    | err => exact Or.inl rfl
    | notFound => exact Or.inr (Or.inl (removeFinalizerUpdate_shape env pvc))
    | found pv =>
      by_cases hm : claimRefMatches pv pvc = true
      · by_cases hu :
          env.updatePV { pv with spec := { pv.spec with claimRef := none } } = true
        · obtain ⟨c, b, hc⟩ := removeFinalizerUpdate_shape env pvc
          refine Or.inr (Or.inr (Or.inr
            ⟨{ pv with spec := { pv.spec with claimRef := none } }, c, b, ?_⟩))
          simp [hm, hu, hc]
        · simp only [Bool.not_eq_true] at hu
          refine Or.inr (Or.inr (Or.inl
            ⟨{ pv with spec := { pv.spec with claimRef := none } }, ?_, ?_⟩)) <;>
            simp [hm, hu]
      · simp only [Bool.not_eq_true] at hm
        refine Or.inr (Or.inl ?_)
        obtain ⟨c, b, hc⟩ := removeFinalizerUpdate_shape env pvc
        exact ⟨c, b, by simp [hm, hc]⟩
  · rw [if_neg hv]
    exact Or.inr (Or.inl (removeFinalizerUpdate_shape env pvc))

/-- Claim C1: ordering of the two store writes.  Every write trace of
`Reconcile` has one of four shapes: no write; a single claim write (volume
clear determined unnecessary: claim unbound, volume NotFound, or
back-reference mismatched); a single FAILED volume write with a retryable
outcome and, in particular, no claim write after it; or a SUCCESSFUL volume
write followed by the claim write.  Hence the guard-token removal is only
ever issued after the back-reference clear has been committed or found
unnecessary, and a failed volume update returns retry without touching the
claim — the volume back-reference can never end up pointing at a claim whose
guard token was already removed by this controller. -/
theorem reconcile_write_ordering (env : Env) (req : NamespacedName) :
    (Reconcile env req).2 = [] ∨
    (∃ c b, (Reconcile env req).2 = [WriteEvent.pvcWrite c b]) ∨
    (∃ v, (Reconcile env req).2 = [WriteEvent.pvWrite v false] ∧
      (Reconcile env req).1 = Outcome.retry) ∨
    (∃ v c b, (Reconcile env req).2
      = [WriteEvent.pvWrite v true, WriteEvent.pvcWrite c b]) := by
  unfold Reconcile
  cases hg : env.getPVC req with
  | notFound => exact Or.inl rfl
  | err => exact Or.inl rfl
  | found pvc =>
    by_cases hc : (pvc.deletionTimestampSet && hasFinalizer pvc.finalizers) = true
    · simpa [hc] using handlePVCDeletion_shape env pvc
    · simp only [Bool.not_eq_true] at hc
      simp [hc]

/-! ## Event-filter theorems -/

/-- A deleting, bound claim carrying the guard token, used as both sides of
an update notification. -/
def pvcSteadyDeleting : PersistentVolumeClaim :=
  { name := "c1"
    ns := "ns1"
    finalizers := [PVClaimRefCleanupFinalizer]
    deletionTimestampSet := true
    volumeName := "v1"
    otherFields := "" }

/-- Counterexample to claim C2 as stated: an update notification whose OLD
object already has the deletion marker set and whose guard-token presence is
unchanged (old and new are the very same bound claim) IS admitted by the
filter — the code tests only the new object's deletion timestamp, not a
transition from unset to set. -/
theorem eventFilter_update_old_already_deleting_admitted :
    getDeletionTimestampSet (StoreObject.pvcObj pvcSteadyDeleting) = true ∧
    hasFinalizer (getFinalizers (StoreObject.pvcObj pvcSteadyDeleting))
      = hasFinalizer (getFinalizers (StoreObject.pvcObj pvcSteadyDeleting)) ∧
    eventFilter (ChangeEvent.update (StoreObject.pvcObj pvcSteadyDeleting)
      (StoreObject.pvcObj pvcSteadyDeleting)) = true := by
  refine ⟨rfl, rfl, ?_⟩
  decide

/-- Claim C2 (amended): for an update notification about claims whose new
object is bound, the filter admits iff the guard-token presence differs
between old and new, or the NEW object's deletion marker is set — regardless
of whether the old object's marker was already set. -/
theorem eventFilter_update_characterization
    (objOld objNew : PersistentVolumeClaim)
    (hbound : objNew.volumeName ≠ "") :
    eventFilter (ChangeEvent.update (StoreObject.pvcObj objOld)
        (StoreObject.pvcObj objNew)) = true
      ↔ (hasFinalizer objOld.finalizers ≠ hasFinalizer objNew.finalizers
          ∨ objNew.deletionTimestampSet = true) := by
  simp [eventFilter, hasBoundPVFuncs, hasBoundPV, liberatorFuncs, getFinalizers,
    getDeletionTimestampSet, hbound]

/-- Witness for C2 (amended) on a token-flip update between bound claims. -/
theorem eventFilter_update_characterization_witness :
    pvcSteadyDeleting.volumeName ≠ "" ∧
    eventFilter (ChangeEvent.update (StoreObject.pvcObj pvcNoToken)
      (StoreObject.pvcObj pvcSteadyDeleting)) = true :=
  ⟨by decide,
   (eventFilter_update_characterization pvcNoToken pvcSteadyDeleting
      (by decide)).mpr (Or.inr rfl)⟩

/-- Claim C8: any notification whose filtered object fails `hasBoundPV` —
every non-claim object, and every claim with an empty bound-volume name — is
rejected by the combined filter, for all four notification kinds (for an
update, the predicate is applied to the new object). -/
theorem eventFilter_requires_bound_claim :
    (∀ obj : StoreObject, hasBoundPV obj = false →
      eventFilter (ChangeEvent.create obj) = false ∧
      eventFilter (ChangeEvent.delete obj) = false ∧
      eventFilter (ChangeEvent.generic obj) = false ∧
      (∀ objOld : StoreObject, eventFilter (ChangeEvent.update objOld obj) = false)) ∧
    (∀ (fz : List String) (dt : Bool), hasBoundPV (StoreObject.otherObj fz dt) = false) ∧
    (∀ c : PersistentVolumeClaim, c.volumeName = "" →
      hasBoundPV (StoreObject.pvcObj c) = false) := by
  refine ⟨?_, fun fz dt => rfl, ?_⟩
  · intro obj h
    refine ⟨?_, ?_, ?_, fun objOld => ?_⟩ <;>
      simp [eventFilter, hasBoundPVFuncs, h]
  · intro c h
    simp [hasBoundPV, h]

/-- Witness for C8: an unbound deleting claim with the token is rejected on a
create notification event. -/
theorem eventFilter_requires_bound_claim_witness :
    eventFilter (ChangeEvent.create (StoreObject.pvcObj pvcUnbound)) = false :=
  (eventFilter_requires_bound_claim.1 (StoreObject.pvcObj pvcUnbound)
    (eventFilter_requires_bound_claim.2.2 pvcUnbound (by decide))).1

end Liberator
